import Mathlib

/- Verification of the SeamlessByRudeboy tile-transform and compositing engine.

   The JavaScript sources under src/js (canvas.js, patterns.js, utils.js,
   tools.js) and the UI module are shallowly embedded below. JS numbers are
   modelled as exact rationals (the claims are about exact algebraic
   relationships of the tile-placement arithmetic), tile indices as integers,
   and pixel channels as naturals. Math.round is JS rounding: half away
   from zero is wrong, JS rounds half toward positive infinity, which is
   floor of x + 1/2. -/

namespace Seamless

/-- JS Math.round: floor of x + 1/2 (rounds .5 toward positive infinity). -/
def jsRound (x : ℚ) : ℤ := ⌊x + 1 / 2⌋

/-- Repeat topology, canvasState.repeatType in canvas.js. -/
inductive RepeatType
  | full
  | halfDrop
  | brick
deriving DecidableEq

/-- Numeric and topological fields of canvasState (canvas.js lines 22-63)
    that the tile-placement, export and mockup math reads. tileImageWidth is
    canvasState.tileImage.width of the loaded pattern image. -/
structure RenderState where
  scale : ℚ
  offsetPercentX : ℚ
  offsetPercentY : ℚ
  panX : ℚ
  panY : ℚ
  zoom : ℚ
  repeatType : RepeatType
  maxCanvasSize : ℚ
  mockupZoom : ℚ
  tileImageWidth : ℚ
deriving DecidableEq

/-- drawTiledPattern, canvas.js line 356: tilesX = ceil(width / tileSize / zoom) + 6
    (and the same for Y with the height). -/
def tileCount (extent tileSize zoom : ℚ) : ℤ := ⌈extent / tileSize / zoom⌉ + 6

/-- drawTiledPattern, canvas.js line 358: startTileX = floor(-panX / (tileSize * zoom)) - 3
    (and the same for Y). -/
def startTile (pan tileSize zoom : ℚ) : ℤ := ⌊-pan / (tileSize * zoom)⌋ - 3

/-- Logical draw x of tile (i, j), canvas.js lines 364-373: the base position
    i * tileSize + offsetPercentX * tileSize, plus tileSize / 2 under brick
    topology when Math.abs(j) % 2 === 1. -/
def tileDrawX (st : RenderState) (tileSize : ℚ) (i j : ℤ) : ℚ :=
  if st.repeatType = RepeatType.brick ∧ j.natAbs % 2 = 1 then
    (i : ℚ) * tileSize + st.offsetPercentX * tileSize + tileSize / 2
  else
    (i : ℚ) * tileSize + st.offsetPercentX * tileSize

/-- Logical draw y of tile (i, j), canvas.js lines 365-370: the base position
    j * tileSize + offsetPercentY * tileSize, plus tileSize / 2 under half-drop
    topology when Math.abs(i) % 2 === 1. -/
def tileDrawY (st : RenderState) (tileSize : ℚ) (i j : ℤ) : ℚ :=
  if st.repeatType = RepeatType.halfDrop ∧ i.natAbs % 2 = 1 then
    (j : ℚ) * tileSize + st.offsetPercentY * tileSize + tileSize / 2
  else
    (j : ℚ) * tileSize + st.offsetPercentY * tileSize

/-- Axis-aligned device-space rectangle. -/
structure Rect where
  x : ℚ
  y : ℚ
  w : ℚ
  h : ℚ
deriving DecidableEq

/-- Device-space rectangle a tile occupies in the interactive preview:
    drawTiledPattern runs under ctx.translate(panX, panY); ctx.scale(zoom, zoom)
    (canvas.js lines 352-353) and blits the tile at
    (drawX, drawY, tileSize, tileSize) (line 375). -/
def previewTileRect (st : RenderState) (tileSize : ℚ) (i j : ℤ) : Rect :=
  { x := st.panX + st.zoom * tileDrawX st tileSize i j
    y := st.panY + st.zoom * tileDrawY st tileSize i j
    w := st.zoom * tileSize
    h := st.zoom * tileSize }

/-- Pan used by exportPattern, patterns.js lines 114-117:
    panX * (exportSize / maxCanvasSize). -/
def exportPanX (st : RenderState) (exportSize : ℚ) : ℚ :=
  st.panX * (exportSize / st.maxCanvasSize)

/-- Pan used by exportPattern for the y axis, patterns.js lines 114-117. -/
def exportPanY (st : RenderState) (exportSize : ℚ) : ℚ :=
  st.panY * (exportSize / st.maxCanvasSize)

/-- Device-space rectangle a tile occupies in the export buffer: exportPattern
    runs under translate(exportPan); scale(zoom, zoom) (patterns.js lines
    113-118) and blits at (drawX, drawY, tileSize, tileSize) (line 136), with
    the same tile-position math as the preview (lines 127-134). -/
def exportTileRect (st : RenderState) (exportSize tileSize : ℚ) (i j : ℤ) : Rect :=
  { x := exportPanX st exportSize + st.zoom * tileDrawX st tileSize i j
    y := exportPanY st exportSize + st.zoom * tileDrawY st tileSize i j
    w := st.zoom * tileSize
    h := st.zoom * tileSize }

/-- exportPattern, patterns.js line 122: the export start index uses the
    rescaled pan. -/
def exportStartTileX (st : RenderState) (exportSize tileSize : ℚ) : ℤ :=
  ⌊-(exportPanX st exportSize) / (tileSize * st.zoom)⌋ - 3

/-- exportPattern, patterns.js line 123: y-axis export start index. -/
def exportStartTileY (st : RenderState) (exportSize tileSize : ℚ) : ℤ :=
  ⌊-(exportPanY st exportSize) / (tileSize * st.zoom)⌋ - 3

/-- exportPattern, patterns.js lines 120-121:
    tilesX = ceil(exportSize / tileSize / zoom) + 6. -/
def exportTileCount (exportSize tileSize zoom : ℚ) : ℤ :=
  ⌈exportSize / tileSize / zoom⌉ + 6

/-- Indices visited by a loop for (i = start; i < start + count; i++). -/
def tileIndexList (start count : ℤ) : List ℤ :=
  (List.range count.toNat).map fun k => start + (k : ℤ)

/-- All device-space tile rectangles drawn by the preview loop
    (canvas.js lines 362-376) on a width x height canvas. -/
def previewRects (st : RenderState) (width height tileSize : ℚ) : List Rect :=
  (tileIndexList (startTile st.panX tileSize st.zoom) (tileCount width tileSize st.zoom)).flatMap
    fun i =>
      (tileIndexList (startTile st.panY tileSize st.zoom) (tileCount height tileSize st.zoom)).map
        fun j => previewTileRect st tileSize i j

/-- All device-space tile rectangles drawn by the export loop
    (patterns.js lines 125-138). -/
def exportRects (st : RenderState) (exportSize tileSize : ℚ) : List Rect :=
  (tileIndexList (exportStartTileX st exportSize tileSize)
      (exportTileCount exportSize tileSize st.zoom)).flatMap
    fun i =>
      (tileIndexList (exportStartTileY st exportSize tileSize)
          (exportTileCount exportSize tileSize st.zoom)).map
        fun j => exportTileRect st exportSize tileSize i j

/-- Modelled from the spec (claim C1 compares the code against this): scaling a
    device rectangle uniformly by a factor, as in the spec sentence that the
    export tile rectangle is the preview rectangle scaled by size/maxCanvasSize. -/
def rectScale (k : ℚ) (r : Rect) : Rect :=
  { x := k * r.x, y := k * r.y, w := k * r.w, h := k * r.h }

/-- Forward scale slider map, ui module setupSliders lines 134-138:
    s <= 50 gives 0.05 + (s/50)*0.95, otherwise 1.0 + ((s-50)/50)*4.0. -/
def scaleFromSlider (s : ℤ) : ℚ :=
  if s ≤ 50 then 0.05 + ((s : ℚ) / 50) * 0.95 else 1.0 + (((s : ℚ) - 50) / 50) * 4.0

/-- Inverse slider projection for scale, patterns.js lines 75-80 (also ui
    module lines 158-163 and tools.js lines 500-502):
    scale <= 1.0 gives round(((scale-0.05)/0.95)*50), else round(50+((scale-1.0)/4.0)*50). -/
def scaleSliderFromScale (v : ℚ) : ℤ :=
  if v ≤ 1.0 then jsRound ((v - 0.05) / 0.95 * 50) else jsRound (50 + (v - 1.0) / 4.0 * 50)

/-- Forward zoom slider map, ui module setupSliders lines 180-184:
    s <= 50 gives (1+(s/50)*99)/100, otherwise (100+((s-50)/50)*700)/100. -/
def zoomFromSlider (s : ℤ) : ℚ :=
  if s ≤ 50 then (1 + ((s : ℚ) / 50) * 99) / 100 else (100 + (((s : ℚ) - 50) / 50) * 700) / 100

/-- Inverse slider projection for zoom, canvas.js updateZoomSlider lines
    709-721: zoomPercent = round(zoom*100); then
    round(((zoomPercent-1)/99)*50) when zoomPercent <= 100,
    else round(50+((zoomPercent-100)/700)*50). -/
def zoomSliderFromZoom (zoom : ℚ) : ℤ :=
  if jsRound (zoom * 100) ≤ 100 then
    jsRound (((jsRound (zoom * 100) : ℚ) - 1) / 99 * 50)
  else
    jsRound (50 + ((jsRound (zoom * 100) : ℚ) - 100) / 700 * 50)

/-- utils.js line 29: snap(val, step) = Math.round(val / step) * step. -/
def snap (val step : ℚ) : ℚ := (jsRound (val / step) : ℚ) * step

/-- utils.js lines 40-46: snapScale. -/
def snapScale (val : ℚ) : ℚ :=
  if 0.25 ≤ val then snap val 0.25 else max 0.05 (snap val 0.01)

/-- utils.js lines 55-61: snapZoom (value is a zoom percentage). -/
def snapZoom (val : ℚ) : ℚ :=
  if 25 ≤ val then snap val 25 else max 1 ((jsRound val : ℚ))

/-- canvas.js line 61: MIN_ZOOM. -/
def MIN_ZOOM : ℚ := 0.01

/-- canvas.js line 62: MAX_ZOOM. -/
def MAX_ZOOM : ℚ := 8

/-- handleWheel, canvas.js lines 206-209: the new zoom is the old zoom times
    the wheel factor, clamped into [MIN_ZOOM, MAX_ZOOM]. -/
def wheelNewZoom (zoom zoomFactor : ℚ) : ℚ :=
  max MIN_ZOOM (min MAX_ZOOM (zoom * zoomFactor))

/-- handleWheel, canvas.js lines 211-215: the pan update
    pan - (mouse - pan) * ((newZoom - zoom) / zoom). -/
def wheelNewPan (pan mouse zoom newZoom : ℚ) : ℚ :=
  pan - (mouse - pan) * ((newZoom - zoom) / zoom)

/-- One RGBA pixel (byte channels). -/
structure Pixel where
  r : ℕ
  g : ℕ
  b : ℕ
  a : ℕ
deriving DecidableEq

/-- drawMockupWithPattern, canvas.js line 568: the chroma-key classification
    isGreen = (g > 200) && (g > r + 50) && (g > b + 50) && (r < 50) && (b < 50) && (a > 0). -/
def isGreen (p : Pixel) : Bool :=
  decide (200 < p.g) && decide (p.r + 50 < p.g) && decide (p.b + 50 < p.g) &&
    decide (p.r < 50) && decide (p.b < 50) && decide (0 < p.a)

/-- drawMockupWithPattern, canvas.js lines 570-575: a key pixel takes the
    pattern pixel at the same index (all four channels), any other pixel is
    left unchanged. -/
def chromaPixel (mock pat : Pixel) : Pixel :=
  if isGreen mock then pat else mock

/-- The per-index replacement loop of canvas.js lines 560-578, with the flat
    RGBA byte array grouped into whole pixels. -/
def chromaComposite (mock pat : List Pixel) : List Pixel :=
  List.zipWith chromaPixel mock pat

/-- Geometric parameters of drawMockupWithPattern, canvas.js lines 527-554. -/
structure MockupRenderParams where
  displaySize : ℚ
  patternZoom : ℚ
  patternTileSize : ℚ
deriving DecidableEq

/-- drawMockupWithPattern, canvas.js: displaySize =
    min(canvas.width, canvas.height) * 0.72 * mockupZoom (lines 527-530); the
    pattern buffer context is scaled by canvasState.zoom about the buffer
    center (line 550); the tile size passed to drawPatternToContext is
    tileImage.width * scale (lines 552-553). -/
def drawMockupParams (st : RenderState) (canvasW canvasH : ℚ) : MockupRenderParams :=
  { displaySize := min canvasW canvasH * 0.72 * st.mockupZoom
    patternZoom := st.zoom
    patternTileSize := st.tileImageWidth * st.scale }

/-- The numeric settings snapshot that savePattern stores, tools.js lines
    453-462 (backgroundColor, a string, is carried unchanged and omitted). -/
structure PatternSettings where
  scale : ℚ
  offsetPercentX : ℚ
  offsetPercentY : ℚ
  repeatType : RepeatType
  zoom : ℚ
  panX : ℚ
  panY : ℚ
deriving DecidableEq

/-- loadPattern, tools.js lines 490-497: the snapshot values are assigned to
    canvasState verbatim, with no clamping. -/
def loadPatternRestore (st : RenderState) (s : PatternSettings) : RenderState :=
  { st with
    scale := s.scale
    offsetPercentX := s.offsetPercentX
    offsetPercentY := s.offsetPercentY
    repeatType := s.repeatType
    zoom := s.zoom
    panX := s.panX
    panY := s.panY }

/-- An in-range render state used as a concrete starting point. -/
def baseState : RenderState :=
  { scale := 1
    offsetPercentX := 0
    offsetPercentY := 0
    panX := 0
    panY := 0
    zoom := 1
    repeatType := RepeatType.full
    maxCanvasSize := 1200
    mockupZoom := 1
    tileImageWidth := 300 }

/-- baseState with half-drop topology. -/
def halfDropState : RenderState :=
  { baseState with repeatType := RepeatType.halfDrop }

/-- A concrete render state for the export-framing check: a 100-pixel pattern
    at scale 1 (tileSize 100), zoom 1, no pan, no offset, full repeat, and a
    100-pixel preview canvas budget. -/
def exportCexState : RenderState :=
  { scale := 1
    offsetPercentX := 0
    offsetPercentY := 0
    panX := 0
    panY := 0
    zoom := 1
    repeatType := RepeatType.full
    maxCanvasSize := 100
    mockupZoom := 1
    tileImageWidth := 100 }

/-- A concrete render state whose main viewport zoom (2) differs from its
    mockup zoom (1.5). -/
def mockupCexState : RenderState :=
  { baseState with zoom := 2, mockupZoom := 3 / 2 }

/-- A saved-settings snapshot with an out-of-range scale (10 is outside the
    documented scale range [0.05, 5.0]). -/
def outOfRangeSettings : PatternSettings :=
  { scale := 10
    offsetPercentX := 0
    offsetPercentY := 0
    repeatType := RepeatType.full
    zoom := 1
    panX := 0
    panY := 0 }

/-- Index lookup through List.zipWith: when both lists have a value at k, the
    zipped list has the combined value at k. -/
theorem zipWith_getElem?_eq {α β γ : Type} (f : α → β → γ) (xs : List α) (ys : List β)
    (k : ℕ) (a : α) (b : β) (hx : xs[k]? = some a) (hy : ys[k]? = some b) :
    (List.zipWith f xs ys)[k]? = some (f a b) := by
  induction xs generalizing ys k with
  | nil => simp at hx
  | cons x xs ih =>
    cases ys with
    | nil => simp at hy
    | cons y ys =>
      cases k with
      | zero =>
        simp only [List.getElem?_cons_zero, Option.some.injEq] at hx hy
        simp [hx, hy]
      | succ n =>
        simp only [List.getElem?_cons_succ] at hx hy
        simpa using ih ys n hx hy

/-- C2: for repeatType = full the tile layout places tiles with adjacent
    indices so that their draw rectangles abut exactly: moving from i to i + 1
    at fixed j shifts drawX by exactly tileSize and leaves drawY unchanged,
    and moving from j to j + 1 at fixed i shifts drawY by exactly tileSize and
    leaves drawX unchanged, for every scale, zoom, pan and offset, so there is
    zero gap and zero overlap on both axes. -/
theorem full_repeat_adjacent_abut (st : RenderState) (tileSize : ℚ) (i j : ℤ)
    (hfull : st.repeatType = RepeatType.full) :
    tileDrawX st tileSize (i + 1) j = tileDrawX st tileSize i j + tileSize ∧
    tileDrawY st tileSize (i + 1) j = tileDrawY st tileSize i j ∧
    tileDrawY st tileSize i (j + 1) = tileDrawY st tileSize i j + tileSize ∧
    tileDrawX st tileSize i (j + 1) = tileDrawX st tileSize i j := by
  have hx : ∀ a b : ℤ, tileDrawX st tileSize a b =
      (a : ℚ) * tileSize + st.offsetPercentX * tileSize := fun a b => by
    simp [tileDrawX, hfull]
  have hy : ∀ a b : ℤ, tileDrawY st tileSize a b =
      (b : ℚ) * tileSize + st.offsetPercentY * tileSize := fun a b => by
    simp [tileDrawY, hfull]
  refine ⟨?_, ?_, ?_, ?_⟩
  · rw [hx, hx]
    push_cast
    ring
  · rw [hy, hy]
  · rw [hy, hy]
    push_cast
    ring
  · rw [hx, hx]

/-- Witness for C2 at a concrete full-repeat state. -/
theorem full_repeat_adjacent_abut_witness :
    tileDrawX baseState 10 (0 + 1) 0 = tileDrawX baseState 10 0 0 + 10 :=
  (full_repeat_adjacent_abut baseState 10 0 0 rfl).1

set_option maxHeartbeats 1600000 in
/-- Round trip of the scale slider maps, checked case by case over [0, 100]. -/
theorem scale_round_trip_aux :
    ∀ s : ℤ, 0 ≤ s → s ≤ 100 →
      (scaleSliderFromScale (scaleFromSlider s) - s).natAbs ≤ 1 := by
  intro s h0 h1
  interval_cases s <;>
    norm_num [scaleSliderFromScale, scaleFromSlider, jsRound]

set_option maxHeartbeats 1600000 in
/-- Round trip of the zoom slider maps, checked case by case over [0, 100]. -/
theorem zoom_round_trip_aux :
    ∀ s : ℤ, 0 ≤ s → s ≤ 100 →
      (zoomSliderFromZoom (zoomFromSlider s) - s).natAbs ≤ 1 := by
  intro s h0 h1
  interval_cases s <;>
    norm_num [zoomSliderFromZoom, zoomFromSlider, jsRound]

/-- C3: for every integer slider position s in [0, 100], applying the forward
    scale map and then the inverse slider projection lands within 1 slider
    unit of s, and the same holds for the zoom map and its inverse. -/
theorem slider_round_trip :
    ∀ s : ℤ, 0 ≤ s → s ≤ 100 →
      (scaleSliderFromScale (scaleFromSlider s) - s).natAbs ≤ 1 ∧
      (zoomSliderFromZoom (zoomFromSlider s) - s).natAbs ≤ 1 :=
  fun s h0 h1 => ⟨scale_round_trip_aux s h0 h1, zoom_round_trip_aux s h0 h1⟩

/-- Witness for C3 at slider position 7. -/
theorem slider_round_trip_witness :
    (scaleSliderFromScale (scaleFromSlider 7) - 7).natAbs ≤ 1 ∧
    (zoomSliderFromZoom (zoomFromSlider 7) - 7).natAbs ≤ 1 :=
  slider_round_trip 7 (by norm_num) (by norm_num)

/-- C4: under half-drop exactly the tiles with odd absolute column index i get
    tileSize / 2 added to drawY, so at fixed j two tiles with i differing by 1
    have drawY values tileSize / 2 apart while drawX carries no topology
    perturbation; symmetrically under brick, tiles with odd absolute row index
    j get tileSize / 2 added to drawX, so at fixed i two tiles with j
    differing by 1 have drawX values tileSize / 2 apart while drawY carries no
    topology perturbation. -/
theorem topology_offset_spec (st : RenderState) (tileSize : ℚ) (i j : ℤ)
    (hT : 0 < tileSize) :
    (st.repeatType = RepeatType.halfDrop →
      (i.natAbs % 2 = 1 →
        tileDrawY st tileSize i j =
          (j : ℚ) * tileSize + st.offsetPercentY * tileSize + tileSize / 2) ∧
      (i.natAbs % 2 = 0 →
        tileDrawY st tileSize i j = (j : ℚ) * tileSize + st.offsetPercentY * tileSize) ∧
      |tileDrawY st tileSize (i + 1) j - tileDrawY st tileSize i j| = tileSize / 2 ∧
      tileDrawX st tileSize i j = (i : ℚ) * tileSize + st.offsetPercentX * tileSize) ∧
    (st.repeatType = RepeatType.brick →
      (j.natAbs % 2 = 1 →
        tileDrawX st tileSize i j =
          (i : ℚ) * tileSize + st.offsetPercentX * tileSize + tileSize / 2) ∧
      (j.natAbs % 2 = 0 →
        tileDrawX st tileSize i j = (i : ℚ) * tileSize + st.offsetPercentX * tileSize) ∧
      |tileDrawX st tileSize i (j + 1) - tileDrawX st tileSize i j| = tileSize / 2 ∧
      tileDrawY st tileSize i j = (j : ℚ) * tileSize + st.offsetPercentY * tileSize) := by
  constructor
  · intro hhd
    refine ⟨fun h1 => by simp [tileDrawY, hhd, h1], fun h0 => by simp [tileDrawY, hhd, h0],
      ?_, by simp [tileDrawX, hhd]⟩
    rcases Nat.mod_two_eq_zero_or_one i.natAbs with h | h
    · have h2 : (i + 1).natAbs % 2 = 1 := by omega
      have ea : tileDrawY st tileSize (i + 1) j =
          (j : ℚ) * tileSize + st.offsetPercentY * tileSize + tileSize / 2 := by
        simp [tileDrawY, hhd, h2]
      have eb : tileDrawY st tileSize i j =
          (j : ℚ) * tileSize + st.offsetPercentY * tileSize := by
        simp [tileDrawY, hhd, h]
      have ec : (j : ℚ) * tileSize + st.offsetPercentY * tileSize + tileSize / 2 -
          ((j : ℚ) * tileSize + st.offsetPercentY * tileSize) = tileSize / 2 := by ring
      rw [ea, eb, ec]
      exact abs_of_pos (by linarith)
    · have h2 : (i + 1).natAbs % 2 = 0 := by omega
      have ea : tileDrawY st tileSize (i + 1) j =
          (j : ℚ) * tileSize + st.offsetPercentY * tileSize := by
        simp [tileDrawY, hhd, h2]
      have eb : tileDrawY st tileSize i j =
          (j : ℚ) * tileSize + st.offsetPercentY * tileSize + tileSize / 2 := by
        simp [tileDrawY, hhd, h]
      have ec : (j : ℚ) * tileSize + st.offsetPercentY * tileSize -
          ((j : ℚ) * tileSize + st.offsetPercentY * tileSize + tileSize / 2) =
          -(tileSize / 2) := by ring
      rw [ea, eb, ec, abs_neg]
      exact abs_of_pos (by linarith)
  · intro hbr
    refine ⟨fun h1 => by simp [tileDrawX, hbr, h1], fun h0 => by simp [tileDrawX, hbr, h0],
      ?_, by simp [tileDrawY, hbr]⟩
    rcases Nat.mod_two_eq_zero_or_one j.natAbs with h | h
    · have h2 : (j + 1).natAbs % 2 = 1 := by omega
      have ea : tileDrawX st tileSize i (j + 1) =
          (i : ℚ) * tileSize + st.offsetPercentX * tileSize + tileSize / 2 := by
        simp [tileDrawX, hbr, h2]
      have eb : tileDrawX st tileSize i j =
          (i : ℚ) * tileSize + st.offsetPercentX * tileSize := by
        simp [tileDrawX, hbr, h]
      have ec : (i : ℚ) * tileSize + st.offsetPercentX * tileSize + tileSize / 2 -
          ((i : ℚ) * tileSize + st.offsetPercentX * tileSize) = tileSize / 2 := by ring
      rw [ea, eb, ec]
      exact abs_of_pos (by linarith)
    · have h2 : (j + 1).natAbs % 2 = 0 := by omega
      have ea : tileDrawX st tileSize i (j + 1) =
          (i : ℚ) * tileSize + st.offsetPercentX * tileSize := by
        simp [tileDrawX, hbr, h2]
      have eb : tileDrawX st tileSize i j =
          (i : ℚ) * tileSize + st.offsetPercentX * tileSize + tileSize / 2 := by
        simp [tileDrawX, hbr, h]
      have ec : (i : ℚ) * tileSize + st.offsetPercentX * tileSize -
          ((i : ℚ) * tileSize + st.offsetPercentX * tileSize + tileSize / 2) =
          -(tileSize / 2) := by ring
      rw [ea, eb, ec, abs_neg]
      exact abs_of_pos (by linarith)

/-- Witness for C4 at a concrete half-drop state. -/
theorem topology_offset_spec_witness :
    |tileDrawY halfDropState 10 (0 + 1) 0 - tileDrawY halfDropState 10 0 0| = 10 / 2 :=
  ((topology_offset_spec halfDropState 10 0 0 (by norm_num)).1 rfl).2.2.1

/-- C5: the chroma-key compositor classifies a pixel as key color exactly when
    g > 200, g > r + 50, g > b + 50, r < 50, b < 50 and a > 0; a key pixel is
    replaced by the pattern pixel at the same index (full RGBA) and a non-key
    pixel is left unchanged; (0,255,0,255) is replaced, (128,128,128,255) is
    not, and a fully transparent green pixel is not. -/
theorem chroma_key_spec :
    (∀ p : Pixel, isGreen p = true ↔
      (200 < p.g ∧ p.r + 50 < p.g ∧ p.b + 50 < p.g ∧ p.r < 50 ∧ p.b < 50 ∧ 0 < p.a)) ∧
    (∀ mock pat : List Pixel, ∀ k : ℕ, ∀ m q : Pixel,
      mock[k]? = some m → pat[k]? = some q →
        (chromaComposite mock pat)[k]? = some (if isGreen m then q else m)) ∧
    (∀ m q : Pixel, isGreen m = true → chromaPixel m q = q) ∧
    (∀ m q : Pixel, isGreen m = false → chromaPixel m q = m) ∧
    isGreen ⟨0, 255, 0, 255⟩ = true ∧
    isGreen ⟨128, 128, 128, 255⟩ = false ∧
    isGreen ⟨0, 255, 0, 0⟩ = false := by
  refine ⟨?_, ?_, ?_, ?_, by decide, by decide, by decide⟩
  · intro p
    unfold isGreen
    simp only [Bool.and_eq_true, decide_eq_true_eq]
    tauto
  · intro mock pat k m q hx hy
    simpa [chromaPixel] using
      zipWith_getElem?_eq chromaPixel mock pat k m q hx hy
  · intro m q h
    simp [chromaPixel, h]
  · intro m q h
    simp [chromaPixel, h]

/-- Witness for C5 on concrete two-pixel buffers. -/
theorem chroma_key_spec_witness :
    (chromaComposite [⟨0, 255, 0, 255⟩, ⟨128, 128, 128, 255⟩] [⟨9, 9, 9, 9⟩, ⟨7, 7, 7, 7⟩])[0]? =
      some (if isGreen ⟨0, 255, 0, 255⟩ then ⟨9, 9, 9, 9⟩ else ⟨0, 255, 0, 255⟩) :=
  chroma_key_spec.2.1 [⟨0, 255, 0, 255⟩, ⟨128, 128, 128, 255⟩] [⟨9, 9, 9, 9⟩, ⟨7, 7, 7, 7⟩]
    0 ⟨0, 255, 0, 255⟩ ⟨9, 9, 9, 9⟩ (by simp) (by simp)

/-- C8: snap, snapScale and snapZoom compute exactly as specified, and the
    concrete values snap(47,10) = 50, snapScale(0.13) = 0.13,
    snapScale(0.02) = 0.05, snapZoom(23) = 23 and snapZoom(30) = 25 hold. -/
theorem snap_helpers_spec :
    (∀ v step : ℚ, 0 < step → snap v step = (jsRound (v / step) : ℚ) * step) ∧
    (∀ v : ℚ, 0.25 ≤ v → snapScale v = snap v 0.25) ∧
    (∀ v : ℚ, v < 0.25 → snapScale v = max 0.05 (snap v 0.01)) ∧
    (∀ v : ℚ, 25 ≤ v → snapZoom v = snap v 25) ∧
    (∀ v : ℚ, v < 25 → snapZoom v = max 1 ((jsRound v : ℚ))) ∧
    snap 47 10 = 50 ∧ snapScale 0.13 = 0.13 ∧ snapScale 0.02 = 0.05 ∧
    snapZoom 23 = 23 ∧ snapZoom 30 = 25 := by
  refine ⟨fun v step _ => rfl,
    fun v h => by simp only [snapScale, if_pos h],
    fun v h => by simp only [snapScale, if_neg (not_le.mpr h)],
    fun v h => by simp only [snapZoom, if_pos h],
    fun v h => by simp only [snapZoom, if_neg (not_le.mpr h)],
    ?_, ?_, ?_, ?_, ?_⟩ <;>
    norm_num [snap, snapScale, snapZoom, jsRound, max_def]

/-- Witness for C8 applying the conditional branches at concrete inputs. -/
theorem snap_helpers_spec_witness :
    snapScale 0.3 = snap 0.3 0.25 ∧ snapZoom 30 = snap 30 25 :=
  ⟨snap_helpers_spec.2.1 0.3 (by norm_num), snap_helpers_spec.2.2.2.1 30 (by norm_num)⟩

/-- C10: wheel zoom keeps the scene point under the cursor fixed: with
    newZoom = clamp(zoom * factor) and the pan update of handleWheel, the
    logical coordinate (mouse - pan) / zoom is unchanged, and the new zoom
    always lies in [MIN_ZOOM, MAX_ZOOM] = [0.01, 8]. -/
theorem wheel_zoom_pointer_invariant (zoom zoomFactor pan mouse : ℚ) (hz : zoom ≠ 0) :
    MIN_ZOOM ≤ wheelNewZoom zoom zoomFactor ∧
    wheelNewZoom zoom zoomFactor ≤ MAX_ZOOM ∧
    (mouse - wheelNewPan pan mouse zoom (wheelNewZoom zoom zoomFactor)) /
        wheelNewZoom zoom zoomFactor = (mouse - pan) / zoom := by
  have h1 : MIN_ZOOM ≤ wheelNewZoom zoom zoomFactor := le_max_left _ _
  have h2 : wheelNewZoom zoom zoomFactor ≤ MAX_ZOOM := by
    apply max_le _ (min_le_left _ _)
    norm_num [MIN_ZOOM, MAX_ZOOM]
  have h0 : (0 : ℚ) < MIN_ZOOM := by norm_num [MIN_ZOOM]
  have hn : wheelNewZoom zoom zoomFactor ≠ 0 := ne_of_gt (lt_of_lt_of_le h0 h1)
  refine ⟨h1, h2, ?_⟩
  unfold wheelNewPan
  field_simp
  ring

/-- Witness for C10 at zoom 1, wheel factor 1.1, pan 2, mouse 5. -/
theorem wheel_zoom_pointer_invariant_witness :
    MIN_ZOOM ≤ wheelNewZoom 1 (11 / 10) ∧
    wheelNewZoom 1 (11 / 10) ≤ MAX_ZOOM ∧
    (5 - wheelNewPan 2 5 1 (wheelNewZoom 1 (11 / 10))) / wheelNewZoom 1 (11 / 10) =
      (5 - 2) / 1 :=
  wheel_zoom_pointer_invariant 1 (11 / 10) 2 5 (by norm_num)

/-- Counterexample to C1: with a 100-pixel tile, zoom 1, zero pan and a
    100-pixel preview budget, exporting at size 200 = 2 * maxCanvasSize draws
    every tile with device width zoom * tileSize = 100, while the preview tile
    (0, 0) (which is drawn: the preview index range is [-3, 4) on each axis)
    occupies (0, 0, 100, 100), whose uniform scaling by 2 has width 200; no
    export tile rectangle can therefore be the preview rectangle scaled by 2. -/
theorem export_framing_counterexample :
    exportCexState.maxCanvasSize = 100 ∧
    startTile exportCexState.panX 100 exportCexState.zoom = -3 ∧
    tileCount 100 100 exportCexState.zoom = 7 ∧
    startTile exportCexState.panY 100 exportCexState.zoom = -3 ∧
    previewTileRect exportCexState 100 0 0 = ⟨0, 0, 100, 100⟩ ∧
    rectScale 2 (previewTileRect exportCexState 100 0 0) = ⟨0, 0, 200, 200⟩ ∧
    (∀ i j : ℤ, (exportTileRect exportCexState 200 100 i j).w = 100) ∧
    ((200 : ℚ) = 100 → False) := by
  refine ⟨rfl, ?_, ?_, ?_, ?_, ?_, ?_, by norm_num⟩
  · norm_num [startTile, exportCexState]
  · norm_num [tileCount, exportCexState]
  · norm_num [startTile, exportCexState]
  · simp only [previewTileRect, tileDrawX, tileDrawY, exportCexState, Rect.mk.injEq]
    norm_num
  · simp only [rectScale, previewTileRect, tileDrawX, tileDrawY, exportCexState,
      Rect.mk.injEq]
    norm_num
  · intro i j
    simp only [exportTileRect, exportCexState]
    norm_num

/-- C1 amended: exporting rescales only the pan, so for every state, export
    size and tile index, the export device rectangle equals the preview device
    rectangle translated by (exportSize / maxCanvasSize - 1) * pan on each
    axis, with identical width and height (zoom * tileSize); the export is a
    reframed equal-scale rendering of the tiling, not the preview scaled by
    exportSize / maxCanvasSize. -/
theorem export_framing_translation (st : RenderState) (exportSize tileSize : ℚ) (i j : ℤ) :
    exportTileRect st exportSize tileSize i j =
      { x := (previewTileRect st tileSize i j).x +
             (exportSize / st.maxCanvasSize - 1) * st.panX
        y := (previewTileRect st tileSize i j).y +
             (exportSize / st.maxCanvasSize - 1) * st.panY
        w := (previewTileRect st tileSize i j).w
        h := (previewTileRect st tileSize i j).h } := by
  simp only [exportTileRect, previewTileRect, exportPanX, exportPanY]
  congr 1 <;> ring

/-- Witness for the amended C1 at the concrete export-framing state. -/
theorem export_framing_translation_witness :
    exportTileRect exportCexState 200 100 0 0 =
      { x := (previewTileRect exportCexState 100 0 0).x +
             (200 / exportCexState.maxCanvasSize - 1) * exportCexState.panX
        y := (previewTileRect exportCexState 100 0 0).y +
             (200 / exportCexState.maxCanvasSize - 1) * exportCexState.panY
        w := (previewTileRect exportCexState 100 0 0).w
        h := (previewTileRect exportCexState 100 0 0).h } :=
  export_framing_translation exportCexState 200 100 0 0

/-- Counterexample to C6: with main viewport zoom 2 and mockupZoom 1.5, the
    pattern buffer of drawMockupWithPattern is scaled by the main viewport
    zoom 2, not by mockupZoom. -/
theorem mockup_zoom_counterexample :
    (drawMockupParams mockupCexState 1000 1000).patternZoom = 2 ∧
    mockupCexState.mockupZoom = 3 / 2 ∧
    ((drawMockupParams mockupCexState 1000 1000).patternZoom =
        mockupCexState.mockupZoom → False) := by
  refine ⟨rfl, rfl, ?_⟩
  intro h
  rw [show (drawMockupParams mockupCexState 1000 1000).patternZoom = 2 from rfl,
    show mockupCexState.mockupZoom = 3 / 2 from rfl] at h
  norm_num at h

/-- C6 amended: the mockup pattern buffer is rendered with the main viewport
    zoom as the zoom factor (mockupZoom plays no role in it), while the buffer
    is sized to 0.72 * min(canvas width, canvas height) * mockupZoom, and the
    tile size passed to the pattern loop is tileImage.width * scale. -/
theorem mockup_pattern_buffer_spec (st : RenderState) (canvasW canvasH : ℚ) :
    (drawMockupParams st canvasW canvasH).patternZoom = st.zoom ∧
    (drawMockupParams st canvasW canvasH).displaySize =
      min canvasW canvasH * 0.72 * st.mockupZoom ∧
    (drawMockupParams st canvasW canvasH).patternTileSize =
      st.tileImageWidth * st.scale :=
  ⟨rfl, rfl, rfl⟩

/-- Witness for the amended C6 at the concrete mockup state. -/
theorem mockup_pattern_buffer_spec_witness :
    (drawMockupParams mockupCexState 1000 800).patternZoom = mockupCexState.zoom :=
  (mockup_pattern_buffer_spec mockupCexState 1000 800).1

/-- Counterexample to C9: replaying a settings snapshot with scale = 10
    through loadPattern leaves scale at 10, outside the documented range
    [0.05, 5.0]: loadPattern does not re-clamp. -/
theorem load_pattern_no_clamp_counterexample :
    baseState.scale = 1 ∧
    (loadPatternRestore baseState outOfRangeSettings).scale = 10 ∧
    ((loadPatternRestore baseState outOfRangeSettings).scale ≤ 5 → False) := by
  refine ⟨rfl, rfl, ?_⟩
  intro h
  rw [show (loadPatternRestore baseState outOfRangeSettings).scale = 10 from rfl] at h
  norm_num at h

/-- C9 amended: slider-driven mutations of scale and zoom always produce
    values inside the documented ranges (for every slider position in
    [0, 100]), but loadPattern performs no clamping: every numeric field of
    the replayed snapshot is assigned to the render state verbatim, so an
    out-of-range replayed value stays out of range. -/
theorem mutation_clamping_spec :
    (∀ s : ℤ, 0 ≤ s → s ≤ 100 →
      0.05 ≤ scaleFromSlider s ∧ scaleFromSlider s ≤ 5 ∧
      0.01 ≤ zoomFromSlider s ∧ zoomFromSlider s ≤ 8) ∧
    (∀ st : RenderState, ∀ s : PatternSettings,
      (loadPatternRestore st s).scale = s.scale ∧
      (loadPatternRestore st s).zoom = s.zoom ∧
      (loadPatternRestore st s).offsetPercentX = s.offsetPercentX ∧
      (loadPatternRestore st s).offsetPercentY = s.offsetPercentY ∧
      (loadPatternRestore st s).panX = s.panX ∧
      (loadPatternRestore st s).panY = s.panY) := by
  constructor
  · intro s h0 h1
    have hs0 : (0 : ℚ) ≤ (s : ℚ) := by exact_mod_cast h0
    have hs1 : (s : ℚ) ≤ 100 := by exact_mod_cast h1
    by_cases h : s ≤ 50
    · have hq : (s : ℚ) ≤ 50 := by exact_mod_cast h
      have hdiv0 : (0 : ℚ) ≤ (s : ℚ) / 50 := div_nonneg hs0 (by norm_num)
      have hdiv1 : (s : ℚ) / 50 ≤ 1 := by
        rw [div_le_one (by norm_num : (0 : ℚ) < 50)]
        exact hq
      simp only [scaleFromSlider, zoomFromSlider, if_pos h]
      refine ⟨by nlinarith, by nlinarith, ?_, ?_⟩
      · rw [le_div_iff (by norm_num : (0 : ℚ) < 100)]
        nlinarith
      · rw [div_le_iff (by norm_num : (0 : ℚ) < 100)]
        nlinarith
    · have hq : (50 : ℚ) ≤ (s : ℚ) := by
        have : (50 : ℤ) ≤ s := by omega
        exact_mod_cast this
      have hdiv0 : (0 : ℚ) ≤ ((s : ℚ) - 50) / 50 := div_nonneg (by linarith) (by norm_num)
      have hdiv1 : ((s : ℚ) - 50) / 50 ≤ 1 := by
        rw [div_le_one (by norm_num : (0 : ℚ) < 50)]
        linarith
      simp only [scaleFromSlider, zoomFromSlider, if_neg h]
      refine ⟨by nlinarith, by nlinarith, ?_, ?_⟩
      · rw [le_div_iff (by norm_num : (0 : ℚ) < 100)]
        nlinarith
      · rw [div_le_iff (by norm_num : (0 : ℚ) < 100)]
        nlinarith
  · intro st s
    exact ⟨rfl, rfl, rfl, rfl, rfl, rfl⟩

/-- Witness for the amended C9 at slider position 70 and a concrete snapshot. -/
theorem mutation_clamping_spec_witness :
    (0.05 ≤ scaleFromSlider 70 ∧ scaleFromSlider 70 ≤ 5 ∧
      0.01 ≤ zoomFromSlider 70 ∧ zoomFromSlider 70 ≤ 8) ∧
    (loadPatternRestore baseState outOfRangeSettings).scale = outOfRangeSettings.scale :=
  ⟨mutation_clamping_spec.1 70 (by norm_num) (by norm_num),
    (mutation_clamping_spec.2 baseState outOfRangeSettings).1⟩

/-- One axis of the coverage argument: for a device interval [0, extent] seen
    through translate(pan), scale(zoom), every logical coordinate lx in the
    visible range has a tile index i inside the loop range
    [startTile, startTile + tileCount) whose tile interval
    [i * tileSize + off * tileSize, + tileSize] contains lx. -/
theorem axis_cover (extent tileSize zoom pan off lx : ℚ)
    (hT : 0 < tileSize) (hz : 0 < zoom) (ho0 : 0 ≤ off) (ho1 : off < 1)
    (hlo : -pan / zoom ≤ lx) (hhi : lx ≤ (extent - pan) / zoom) :
    ∃ i : ℤ, startTile pan tileSize zoom ≤ i ∧
      i < startTile pan tileSize zoom + tileCount extent tileSize zoom ∧
      (i : ℚ) * tileSize + off * tileSize ≤ lx ∧
      lx ≤ (i : ℚ) * tileSize + off * tileSize + tileSize := by
  have hTne : tileSize ≠ 0 := ne_of_gt hT
  have hzne : zoom ≠ 0 := ne_of_gt hz
  refine ⟨⌊lx / tileSize - off⌋, ?_, ?_, ?_, ?_⟩
  · have ha : -pan / (tileSize * zoom) ≤ lx / tileSize := by
      calc -pan / (tileSize * zoom) = -pan / zoom / tileSize := by
            rw [div_div, mul_comm]
        _ ≤ lx / tileSize := (div_le_div_right hT).mpr hlo
    have hb : -pan / (tileSize * zoom) - 1 ≤ lx / tileSize - off := by linarith
    have hc := Int.floor_mono hb
    have hd : ⌊-pan / (tileSize * zoom) - (1 : ℚ)⌋ = ⌊-pan / (tileSize * zoom)⌋ - 1 := by
      exact_mod_cast Int.floor_sub_int (-pan / (tileSize * zoom)) 1
    unfold startTile
    omega
  · have ha : lx / tileSize ≤ (extent - pan) / (tileSize * zoom) := by
      calc lx / tileSize ≤ (extent - pan) / zoom / tileSize := (div_le_div_right hT).mpr hhi
        _ = (extent - pan) / (tileSize * zoom) := by rw [div_div, mul_comm]
    have hsplit : (extent - pan) / (tileSize * zoom) =
        extent / tileSize / zoom + -pan / (tileSize * zoom) := by
      field_simp
      ring
    have hceil : extent / tileSize / zoom ≤ (⌈extent / tileSize / zoom⌉ : ℚ) :=
      Int.le_ceil _
    have hb : lx / tileSize - off ≤
        (⌈extent / tileSize / zoom⌉ : ℚ) + -pan / (tileSize * zoom) := by linarith
    have hc := Int.floor_mono hb
    have hd : ⌊(⌈extent / tileSize / zoom⌉ : ℚ) + -pan / (tileSize * zoom)⌋ =
        ⌈extent / tileSize / zoom⌉ + ⌊-pan / (tileSize * zoom)⌋ :=
      Int.floor_int_add _ _
    unfold startTile tileCount
    omega
  · have h := Int.floor_le (lx / tileSize - off)
    have h2 : ((⌊lx / tileSize - off⌋ : ℚ) + off) * tileSize ≤ lx / tileSize * tileSize :=
      mul_le_mul_of_nonneg_right (by linarith) hT.le
    rw [div_mul_cancel₀ _ hTne] at h2
    have e : ((⌊lx / tileSize - off⌋ : ℚ) + off) * tileSize =
        (⌊lx / tileSize - off⌋ : ℚ) * tileSize + off * tileSize := by ring
    rw [e] at h2
    exact h2
  · have h := Int.lt_floor_add_one (lx / tileSize - off)
    have h2 : lx / tileSize * tileSize ≤
        ((⌊lx / tileSize - off⌋ : ℚ) + 1 + off) * tileSize :=
      mul_le_mul_of_nonneg_right (by linarith) hT.le
    rw [div_mul_cancel₀ _ hTne] at h2
    have e : ((⌊lx / tileSize - off⌋ : ℚ) + 1 + off) * tileSize =
        (⌊lx / tileSize - off⌋ : ℚ) * tileSize + off * tileSize + tileSize := by ring
    rw [e] at h2
    exact h2

/-- C7: for every viewport, positive tile size, positive zoom, arbitrary pan
    and offsets in [0, 1), the tile set computed with
    tilesX = ceil(W / tileSize / zoom) + 6 and
    startTileX = floor(-panX / (tileSize * zoom)) - 3 (symmetric in Y) covers
    every visible device point under repeatType = full: its logical coordinate
    lies inside some drawn tile rectangle whose index is in the loop range. -/
theorem viewport_coverage (st : RenderState) (viewW viewH tileSize x y : ℚ)
    (hT : 0 < tileSize) (hz : 0 < st.zoom)
    (hox0 : 0 ≤ st.offsetPercentX) (hox1 : st.offsetPercentX < 1)
    (hoy0 : 0 ≤ st.offsetPercentY) (hoy1 : st.offsetPercentY < 1)
    (hfull : st.repeatType = RepeatType.full)
    (hx0 : 0 ≤ x) (hxW : x ≤ viewW) (hy0 : 0 ≤ y) (hyH : y ≤ viewH) :
    ∃ i j : ℤ,
      startTile st.panX tileSize st.zoom ≤ i ∧
      i < startTile st.panX tileSize st.zoom + tileCount viewW tileSize st.zoom ∧
      startTile st.panY tileSize st.zoom ≤ j ∧
      j < startTile st.panY tileSize st.zoom + tileCount viewH tileSize st.zoom ∧
      tileDrawX st tileSize i j ≤ (x - st.panX) / st.zoom ∧
      (x - st.panX) / st.zoom ≤ tileDrawX st tileSize i j + tileSize ∧
      tileDrawY st tileSize i j ≤ (y - st.panY) / st.zoom ∧
      (y - st.panY) / st.zoom ≤ tileDrawY st tileSize i j + tileSize := by
  have hxlo : -st.panX / st.zoom ≤ (x - st.panX) / st.zoom := by
    apply (div_le_div_right hz).mpr
    linarith
  have hxhi : (x - st.panX) / st.zoom ≤ (viewW - st.panX) / st.zoom := by
    apply (div_le_div_right hz).mpr
    linarith
  have hylo : -st.panY / st.zoom ≤ (y - st.panY) / st.zoom := by
    apply (div_le_div_right hz).mpr
    linarith
  have hyhi : (y - st.panY) / st.zoom ≤ (viewH - st.panY) / st.zoom := by
    apply (div_le_div_right hz).mpr
    linarith
  obtain ⟨i, hi1, hi2, hi3, hi4⟩ :=
    axis_cover viewW tileSize st.zoom st.panX st.offsetPercentX
      ((x - st.panX) / st.zoom) hT hz hox0 hox1 hxlo hxhi
  obtain ⟨j, hj1, hj2, hj3, hj4⟩ :=
    axis_cover viewH tileSize st.zoom st.panY st.offsetPercentY
      ((y - st.panY) / st.zoom) hT hz hoy0 hoy1 hylo hyhi
  have ex : tileDrawX st tileSize i j =
      (i : ℚ) * tileSize + st.offsetPercentX * tileSize := by
    simp [tileDrawX, hfull]
  have ey : tileDrawY st tileSize i j =
      (j : ℚ) * tileSize + st.offsetPercentY * tileSize := by
    simp [tileDrawY, hfull]
  exact ⟨i, j, hi1, hi2, hj1, hj2, by rw [ex]; exact hi3, by rw [ex]; exact hi4,
    by rw [ey]; exact hj3, by rw [ey]; exact hj4⟩

/-- Witness for C7 at a concrete viewport and state. -/
theorem viewport_coverage_witness :
    ∃ i j : ℤ,
      startTile baseState.panX 10 baseState.zoom ≤ i ∧
      i < startTile baseState.panX 10 baseState.zoom + tileCount 100 10 baseState.zoom ∧
      startTile baseState.panY 10 baseState.zoom ≤ j ∧
      j < startTile baseState.panY 10 baseState.zoom + tileCount 100 10 baseState.zoom ∧
      tileDrawX baseState 10 i j ≤ (5 - baseState.panX) / baseState.zoom ∧
      (5 - baseState.panX) / baseState.zoom ≤ tileDrawX baseState 10 i j + 10 ∧
      tileDrawY baseState 10 i j ≤ (5 - baseState.panY) / baseState.zoom ∧
      (5 - baseState.panY) / baseState.zoom ≤ tileDrawY baseState 10 i j + 10 :=
  viewport_coverage baseState 100 100 10 5 5 (by norm_num)
    (by norm_num [baseState]) (by norm_num [baseState]) (by norm_num [baseState])
    (by norm_num [baseState]) (by norm_num [baseState]) rfl (by norm_num) (by norm_num)
    (by norm_num) (by norm_num)

end Seamless
